import Mathlib

/-!
Verification of the ai-sales-dashboard application (`app.py`).

The dashboard loads two CSV files into in-memory tables at startup and serves
several tab callbacks, each a function of the loaded table and the user's
filter selections.  This file gives a shallow embedding of the data model,
the credential check, the filter/group/aggregate pipeline and the callbacks,
and proves the stated properties about them.

Modelling conventions:
* A dataset row is a record over the fixed column set produced by `load_data`.
  The `date` column is `Option Int` (a point on the time line; `none` is a
  value that failed to parse, pandas `NaT`).
* A table also carries its column-name list, since several callbacks branch
  on column membership (`metric not in df.columns`).
* Numeric cells are `Int` (pandas integer columns); derived averages and
  percentages are exact rationals (`Rat`).  The source renders some of these
  through float formatting; the claims below do not depend on the rendering.
* Figures are represented by their data payload, not their styling.
* `bcrypt.checkpw` and the `uuid4` session id are external effects and enter
  the embedding as explicit parameters.
-/

namespace SalesDashboard

/-- One observation of the metrics dataset, with the column set that
`load_data` requires. -/
structure Row where
  date : Option Int
  country : String
  continent : String
  job_type : String
  age_group : String
  request_type : String
  jobs_placed : Int
  scheduled_demos : Int
  ai_requests : Int
  promotional_events : Int
deriving DecidableEq, Repr

/-- A credential row of `users.csv`, as loaded by `load_users`. -/
structure UserRec where
  username : String
  password_hash : String
  role : String
deriving DecidableEq, Repr

/-- An in-memory data frame: its column names and its rows. -/
structure Table where
  cols : List String
  rows : List Row
deriving DecidableEq, Repr

/-- `df.copy()`: a fresh table value equal to the original. -/
def Table.copy (t : Table) : Table := ⟨t.cols, t.rows⟩

/-- The behaviour of `bcrypt.checkpw password hash`: either a boolean verdict,
or a raised exception (for example on a malformed stored hash). -/
def Checkpw : Type := String → String → Except String Bool

/-- `verify_user` from `app.py`: reject empty input, look up the first row of
the user table whose `username` matches, and run bcrypt verification of the
password against its stored hash, turning a raised exception into `false`. -/
def verify_user (checkpw : Checkpw) (users : List UserRec)
    (username password : String) : Bool :=
  if username = "" ∨ password = "" then false
  else
    match users.find? (fun u => u.username == username) with
    | none => false
    | some u =>
      match checkpw password u.password_hash with
      | Except.ok b => b
      | Except.error _ => false

/-- The record stored in the `session-auth` store on a successful login.
The source adds the `persistent` key only when "remember me" is checked; it
is modelled as an always-present boolean. -/
structure AuthData where
  authenticated : Bool
  user : String
  session_id : String
  persistent : Bool
deriving DecidableEq, Repr

/-- The `login` callback.  `none` in the first component is `dash.no_update`
(the stored auth state is left unchanged); the second component is the
`login-output` message.  The fresh `uuid4` session id is supplied as the
parameter `sid`. -/
def login (checkpw : Checkpw) (users : List UserRec) (sid : String)
    (username password : String) (remember : Bool) : Option AuthData × String :=
  if username = "" ∨ password = "" then
    (none, "Please enter both username and password.")
  else if verify_user checkpw users username password then
    (some { authenticated := true, user := username,
            session_id := sid, persistent := remember }, "")
  else
    (none, "Invalid username or password.")

/-- The dataset metric columns (`metrics` in the source). -/
def metrics : List String :=
  ["jobs_placed", "scheduled_demos", "ai_requests", "promotional_events"]

/-- `metric_map.get(m, m)`: display label of a metric column, falling back to
the column name itself. -/
def metric_map (m : String) : String :=
  if m = "jobs_placed" then "Jobs Placed"
  else if m = "scheduled_demos" then "Scheduled Demos"
  else if m = "ai_requests" then "AI Requests"
  else if m = "promotional_events" then "Promotional Events"
  else m

/-- The cell `df[m]` of a row, for a metric column name. -/
def metricVal (m : String) (r : Row) : Int :=
  if m = "jobs_placed" then r.jobs_placed
  else if m = "scheduled_demos" then r.scheduled_demos
  else if m = "ai_requests" then r.ai_requests
  else if m = "promotional_events" then r.promotional_events
  else 0

/-- `date >= bound` on an optional date: a pandas comparison with `NaT` is
false, so rows whose date failed to parse are dropped whenever a bound is
applied. -/
def dateGe (s : Int) (d : Option Int) : Bool :=
  match d with | none => false | some x => decide (s ≤ x)

/-- `date <= bound` on an optional date. -/
def dateLe (e : Int) (d : Option Int) : Bool :=
  match d with | none => false | some x => decide (x ≤ e)

/-- `dff[dff['date'] >= pd.to_datetime(start_date)]`. -/
def filterStart (s : Int) (rows : List Row) : List Row :=
  rows.filter fun r => dateGe s r.date

/-- `dff[dff['date'] <= pd.to_datetime(end_date)]`. -/
def filterEnd (e : Int) (rows : List Row) : List Row :=
  rows.filter fun r => dateLe e r.date

/-- The `if start_date: ... if end_date: ...` date-range step shared by the
analytics, time and export callbacks: each bound is applied only when set. -/
def filterDates (sd ed : Option Int) (rows : List Row) : List Row :=
  let r1 := match sd with | none => rows | some s => filterStart s rows
  match ed with | none => r1 | some e => filterEnd e r1

/-- `if continent != "all": dff = dff[dff['continent'] == continent]`. -/
def filterContinent (c : String) (rows : List Row) : List Row :=
  if c = "all" then rows else rows.filter fun r => decide (r.continent = c)

/-- `if country != "all": dff = dff[dff['country'] == country]`. -/
def filterCountry (c : String) (rows : List Row) : List Row :=
  if c = "all" then rows else rows.filter fun r => decide (r.country = c)

/-- `xs.groupby(key)[val].sum()`: one entry per distinct key, holding the sum
of `val` over the rows carrying that key.  pandas emits groups in sorted key
order; the order of the entries is irrelevant to every property proved below,
so first-occurrence order is used. -/
def groupSum {α κ : Type} [DecidableEq κ] (key : α → κ) (val : α → Int)
    (xs : List α) : List (κ × Int) :=
  ((xs.map key).dedup).map fun k =>
    (k, ((xs.filter fun x => decide (key x = k)).map val).sum)

/-- The four per-group metric totals of `dff.groupby(g)[metrics].sum()`. -/
structure Totals where
  jobs_placed : Int
  scheduled_demos : Int
  ai_requests : Int
  promotional_events : Int
deriving DecidableEq, Repr

/-- `rows.groupby(key)[metrics].sum()`: one entry per distinct key with the
four metric columns summed over the group. -/
def groupSums (key : Row → String) (rows : List Row) : List (String × Totals) :=
  ((rows.map key).dedup).map fun k =>
    let grp := rows.filter fun r => decide (key r = k)
    (k, ⟨((grp.map fun r => r.jobs_placed)).sum,
         ((grp.map fun r => r.scheduled_demos)).sum,
         ((grp.map fun r => r.ai_requests)).sum,
         ((grp.map fun r => r.promotional_events)).sum⟩)

theorem sum_map_add {κ : Type} (l : List κ) (f g : κ → Int) :
    (l.map fun k => f k + g k).sum = (l.map f).sum + (l.map g).sum := by
  induction l with
  | nil => simp
  | cons a t ih => simp only [List.map_cons, List.sum_cons, ih]; ring

theorem sum_map_ite_single {κ : Type} [DecidableEq κ] (l : List κ) (a : κ)
    (c : Int) (hnd : l.Nodup) (ha : a ∈ l) :
    (l.map fun k => if a = k then c else 0).sum = c := by
  induction l with
  | nil => cases ha
  | cons b t ih =>
    rcases List.mem_cons.mp ha with h | h
    · subst h
      have hnot : a ∉ t := (List.nodup_cons.mp hnd).1
      have hz : (t.map fun k => if a = k then c else 0).sum = 0 := by
        apply List.sum_eq_zero
        intro x hx
        rcases List.mem_map.mp hx with ⟨k, hk, hxk⟩
        have : a ≠ k := fun he => hnot (he ▸ hk)
        simpa [this] using hxk.symm
      simp [hz]
    · have hab : a ≠ b := by
        intro he
        exact (List.nodup_cons.mp hnd).1 (he ▸ h)
      simp [hab, ih (List.nodup_cons.mp hnd).2 h]

/-- Partition lemma: summing the per-key fiber sums over a duplicate-free key
list covering all rows recovers the total sum. -/
theorem sum_fiber {α κ : Type} [DecidableEq κ] (key : α → κ) (val : α → Int)
    (keys : List κ) (hnd : keys.Nodup) (xs : List α)
    (hcov : ∀ x ∈ xs, key x ∈ keys) :
    (keys.map fun k =>
        ((xs.filter fun x => decide (key x = k)).map val).sum).sum
      = (xs.map val).sum := by
  induction xs with
  | nil =>
    simp only [List.filter_nil, List.map_nil, List.sum_nil]
    apply List.sum_eq_zero
    intro x hx
    rcases List.mem_map.mp hx with ⟨k, _, hxk⟩
    exact hxk.symm
  | cons x t ih =>
    have hx : key x ∈ keys := hcov x (by simp)
    have ht : ∀ y ∈ t, key y ∈ keys := fun y hy => hcov y (by simp [hy])
    have hsplit : ∀ k : κ,
        ((List.filter (fun y => decide (key y = k)) (x :: t)).map val).sum
          = (if key x = k then val x else 0)
            + ((t.filter fun y => decide (key y = k)).map val).sum := by
      intro k
      by_cases h : key x = k <;> simp [List.filter_cons, h]
    simp only [hsplit]
    rw [sum_map_add keys (fun k => if key x = k then val x else 0)
      (fun k => ((t.filter fun y => decide (key y = k)).map val).sum),
      sum_map_ite_single keys (key x) (val x) hnd hx, ih ht]
    simp

/-- Group-by loses and duplicates no row: the per-group totals sum to the
whole column's sum. -/
theorem groupSum_snd_sum {α κ : Type} [DecidableEq κ] (key : α → κ)
    (val : α → Int) (xs : List α) :
    ((groupSum key val xs).map Prod.snd).sum = (xs.map val).sum := by
  unfold groupSum
  rw [List.map_map]
  exact sum_fiber key val _ (List.nodup_dedup _) xs
    (fun x hx => List.mem_dedup.mpr (List.mem_map_of_mem key hx))

theorem groupSums_base (key : Row → String) (rows : List Row) (sel : Row → Int) :
    (((rows.map key).dedup).map fun k =>
        ((rows.filter fun r => decide (key r = k)).map sel).sum).sum
      = (rows.map sel).sum :=
  sum_fiber key sel _ (List.nodup_dedup _) rows
    (fun _ hx => List.mem_dedup.mpr (List.mem_map_of_mem key hx))

theorem groupSums_jobs_sum (key : Row → String) (rows : List Row) :
    ((groupSums key rows).map fun g => g.2.jobs_placed).sum
      = (rows.map fun r => r.jobs_placed).sum := by
  unfold groupSums
  rw [List.map_map]
  exact groupSums_base key rows _

theorem groupSums_demos_sum (key : Row → String) (rows : List Row) :
    ((groupSums key rows).map fun g => g.2.scheduled_demos).sum
      = (rows.map fun r => r.scheduled_demos).sum := by
  unfold groupSums
  rw [List.map_map]
  exact groupSums_base key rows _

theorem groupSums_ai_sum (key : Row → String) (rows : List Row) :
    ((groupSums key rows).map fun g => g.2.ai_requests).sum
      = (rows.map fun r => r.ai_requests).sum := by
  unfold groupSums
  rw [List.map_map]
  exact groupSums_base key rows _

theorem groupSums_promo_sum (key : Row → String) (rows : List Row) :
    ((groupSums key rows).map fun g => g.2.promotional_events).sum
      = (rows.map fun r => r.promotional_events).sum := by
  unfold groupSums
  rw [List.map_map]
  exact groupSums_base key rows _

/-- The grouping dimensions used by the tab callbacks. -/
inductive Dim where
  | age_group
  | country
  | continent
deriving DecidableEq, Repr

/-- The row key of a grouping dimension. -/
def Dim.key : Dim → Row → String
  | .age_group => fun r => r.age_group
  | .country => fun r => r.country
  | .continent => fun r => r.continent

/-- The filter chain shared by the tab callbacks: an optional date range,
then the continent filter, then the country filter, on a copy of the loaded
table. -/
def filteredView (tbl : Table) (sd ed : Option Int) (continent country : String) :
    List Row :=
  filterCountry country (filterContinent continent (filterDates sd ed (Table.copy tbl).rows))

/-- The filtered frame `dff` of `update_age_tab` (continent and country
filters on a copy of the loaded table; the age tab has no date filter). -/
def ageFiltered (tbl : Table) (continent country : String) : List Row :=
  filterCountry country (filterContinent continent (Table.copy tbl).rows)

/-- `bar_df = dff.groupby('age_group')[metric].sum()` in `update_age_tab`. -/
def age_bar_df (tbl : Table) (metric continent country : String) :
    List (String × Int) :=
  groupSum (fun r => r.age_group) (metricVal metric) (ageFiltered tbl continent country)

/-- `group_by = 'continent' if continent == "all" else 'country'` in
`update_summary_tab`. -/
def summaryGroupKey (continent : String) (r : Row) : String :=
  if continent = "all" then r.continent else r.country

/-- The filtered frame `dff` of `update_summary_tab`. -/
def summaryFiltered (tbl : Table) (continent country : String) : List Row :=
  filterCountry country (filterContinent continent (Table.copy tbl).rows)

/-- `stacked_df = dff.groupby(group_by)[metrics].sum()` in
`update_summary_tab`. -/
def stacked_df (tbl : Table) (continent country : String) :
    List (String × Totals) :=
  groupSums (summaryGroupKey continent) (summaryFiltered tbl continent country)

/-- C2: grouping the filtered table by any dimension partitions it — the
per-group metric totals sum to the metric's sum over all filtered rows, for
the general filter chain, for the age tab's bar table, and for each metric
column of the summary tab's stacked table. -/
theorem groupby_partitions_filtered (tbl : Table) (sd ed : Option Int)
    (m continent country : String) (d : Dim) (_hm : m ∈ metrics) :
    ((groupSum d.key (metricVal m) (filteredView tbl sd ed continent country)).map
        Prod.snd).sum
      = ((filteredView tbl sd ed continent country).map (metricVal m)).sum ∧
    ((age_bar_df tbl m continent country).map Prod.snd).sum
      = ((ageFiltered tbl continent country).map (metricVal m)).sum ∧
    ((stacked_df tbl continent country).map fun g => g.2.jobs_placed).sum
      = ((summaryFiltered tbl continent country).map fun r => r.jobs_placed).sum ∧
    ((stacked_df tbl continent country).map fun g => g.2.scheduled_demos).sum
      = ((summaryFiltered tbl continent country).map fun r => r.scheduled_demos).sum ∧
    ((stacked_df tbl continent country).map fun g => g.2.ai_requests).sum
      = ((summaryFiltered tbl continent country).map fun r => r.ai_requests).sum ∧
    ((stacked_df tbl continent country).map fun g => g.2.promotional_events).sum
      = ((summaryFiltered tbl continent country).map fun r => r.promotional_events).sum :=
  ⟨groupSum_snd_sum _ _ _, groupSum_snd_sum _ _ _,
   groupSums_jobs_sum _ _, groupSums_demos_sum _ _,
   groupSums_ai_sum _ _, groupSums_promo_sum _ _⟩

/-- A small concrete dataset used to instantiate the universally quantified
theorems below. -/
def rowA : Row :=
  { date := some 10, country := "france", continent := "europe",
    job_type := "ft", age_group := "18-25", request_type := "web",
    jobs_placed := 3, scheduled_demos := 1, ai_requests := 4,
    promotional_events := 2 }

def rowB : Row :=
  { date := some 20, country := "japan", continent := "asia",
    job_type := "pt", age_group := "26-35", request_type := "app",
    jobs_placed := 5, scheduled_demos := 2, ai_requests := 1,
    promotional_events := 0 }

def rowC : Row :=
  { date := some 30, country := "spain", continent := "europe",
    job_type := "ft", age_group := "18-25", request_type := "web",
    jobs_placed := 2, scheduled_demos := 7, ai_requests := 0,
    promotional_events := 9 }

def sampleTable : Table :=
  { cols := ["date", "country", "continent", "jobs_placed", "scheduled_demos",
             "ai_requests", "promotional_events", "job_type", "age_group",
             "request_type"],
    rows := [rowA, rowB, rowC] }

/-- Concrete check for C2 at a three-row table. -/
theorem groupby_partitions_filtered_check :
    ((groupSum Dim.age_group.key (metricVal "jobs_placed")
        (filteredView sampleTable none none "all" "all")).map Prod.snd).sum
      = ((filteredView sampleTable none none "all" "all").map
          (metricVal "jobs_placed")).sum ∧
    ((age_bar_df sampleTable "jobs_placed" "all" "all").map Prod.snd).sum
      = ((ageFiltered sampleTable "all" "all").map (metricVal "jobs_placed")).sum ∧
    ((stacked_df sampleTable "all" "all").map fun g => g.2.jobs_placed).sum
      = ((summaryFiltered sampleTable "all" "all").map fun r => r.jobs_placed).sum ∧
    ((stacked_df sampleTable "all" "all").map fun g => g.2.scheduled_demos).sum
      = ((summaryFiltered sampleTable "all" "all").map fun r => r.scheduled_demos).sum ∧
    ((stacked_df sampleTable "all" "all").map fun g => g.2.ai_requests).sum
      = ((summaryFiltered sampleTable "all" "all").map fun r => r.ai_requests).sum ∧
    ((stacked_df sampleTable "all" "all").map fun g => g.2.promotional_events).sum
      = ((summaryFiltered sampleTable "all" "all").map fun r => r.promotional_events).sum :=
  groupby_partitions_filtered sampleTable none none "jobs_placed" "all" "all"
    Dim.age_group (by decide)

/-- Rational-valued metric totals (the percentage view of the stacked bar). -/
structure RatTotals where
  jobs_placed : Rat
  scheduled_demos : Rat
  ai_requests : Rat
  promotional_events : Rat
deriving DecidableEq, Repr

/-- The data payload of a figure.  Styling (colors, margins, templates) is
not modelled.  `empty` is `go.Figure()`; `emptyLine` is `px.line()` called
with no data. -/
inductive Fig where
  | empty
  | emptyLine
  | gauge (value : Rat)
  | heatmap (cells : List ((String × Int) × Int))
  | line (pts : List (Int × Int))
  | lineMulti (pts : List (Int × Totals))
  | bar (data : List (String × Int))
  | stackedBar (data : List (String × RatTotals))
  | pie (data : List (String × Int))
  | choropleth (data : List (String × Int))
deriving DecidableEq, Repr

/-- A text cell of the analytics tab: a placeholder, or a number that the
source renders through float formatting.  The standard-deviation cell holds
the sample variance, of which the source displays the square root. -/
inductive CellText where
  | na
  | nodata
  | num (q : Rat)
deriving DecidableEq, Repr

/-- Calendar bucketing used by `pd.Grouper` and `resample` ('D', 'W', 'M',
'Y'): modelled as fixed-width buckets on the day line.  The exact bucket
boundaries are irrelevant to the properties proved here, which concern the
placeholder branches and sum preservation. -/
def bucket (granularity : String) (d : Int) : Int :=
  if granularity = "D" then d
  else if granularity = "W" then d.fdiv 7
  else if granularity = "M" then d.fdiv 30
  else if granularity = "Y" then d.fdiv 365
  else d

/-- `dff[metric].mean()` as an exact rational. -/
def listMean (l : List Int) : Rat := (l.sum : Rat) / (l.length : Rat)

/-- `dff[metric].std()` squared (sample variance, ddof = 1), as an exact
rational.  On a single row pandas yields NaN; the rational model yields 0. -/
def sampleVar (l : List Int) : Rat :=
  ((l.map fun x => ((x : Rat) - listMean l) ^ 2).sum) / ((l.length : Rat) - 1)

/-- `dff[metric].max()` on a nonempty column (0 on an empty one, a case the
callbacks guard against). -/
def listMax : List Int → Int
  | [] => 0
  | x :: xs => xs.foldl max x

/-- `dff[metric].min()` on a nonempty column. -/
def listMin : List Int → Int
  | [] => 0
  | x :: xs => xs.foldl min x

/-- The filtered frame `dff` of `update_analytics_tab` (date range and
continent filters; the analytics tab has no country filter). -/
def analyticsFiltered (tbl : Table) (sd ed : Option Int) (continent : String) :
    List Row :=
  filterContinent continent (filterDates sd ed (Table.copy tbl).rows)

/-- `update_analytics_tab`: five text cells (total, average, max, min,
standard deviation) and three figures (two gauges and a country-by-month
heatmap).  Rows with an unparsed date are dropped by the heatmap's
`pd.Grouper`. -/
def update_analytics_tab (tbl : Table) (sd ed : Option Int)
    (metric continent : String) : List CellText × Fig × Fig × Fig :=
  if tbl.rows.isEmpty ∨ metric ∉ tbl.cols then
    (List.replicate 5 CellText.na, .empty, .empty, .empty)
  else
    let dff := analyticsFiltered tbl sd ed continent
    if dff.isEmpty then
      (List.replicate 5 CellText.nodata, .empty, .empty, .empty)
    else
      let vals := dff.map (metricVal metric)
      let heatCells := groupSum
        (fun r => (r.country, bucket "M" (r.date.getD 0)))
        (metricVal metric) (dff.filter fun r => r.date.isSome)
      ([CellText.num vals.sum, CellText.num (listMean vals),
        CellText.num (listMax vals), CellText.num (listMin vals),
        CellText.num (sampleVar vals)],
       .gauge (vals.sum : Rat), .gauge (sampleVar vals), .heatmap heatCells)

/-- `resampled = dff.set_index('date').resample(g)[metric].sum()`; rows
whose date failed to parse carry no index position and are dropped. -/
def resampleSum (granularity metric : String) (rows : List Row) :
    List (Int × Int) :=
  groupSum (fun r => bucket granularity (r.date.getD 0)) (metricVal metric)
    (rows.filter fun r => r.date.isSome)

/-- `granularity_map` of `update_time_tab`. -/
def granularityLabel (g : String) : String :=
  if g = "D" then "Daily" else if g = "W" then "Weekly"
  else if g = "M" then "Monthly" else if g = "Y" then "Yearly" else g

/-- The region part of the time-tab title (Python `str.title()`
capitalization is not modelled; no claim concerns these strings). -/
def regionLabel (continent country : String) : String :=
  if continent = "all" ∧ country = "all" then "Globally"
  else if continent ≠ "all" ∧ country = "all" then "in " ++ continent
  else if continent = "all" then "in " ++ country
  else "in " ++ continent ++ ", " ++ country

/-- `update_time_tab`: the trend line chart and its dynamic title.  The
least-squares trendline overlay is a float-valued display artifact and is
not part of the payload. -/
def update_time_tab (tbl : Table) (sd ed : Option Int)
    (metric continent country granularity : String) : Fig × String :=
  if tbl.rows.isEmpty ∨ metric ∉ tbl.cols then
    (.empty, "Select a metric")
  else
    let dff := filteredView tbl sd ed continent country
    if dff.isEmpty then
      (.empty, "No data available for selected filters")
    else
      (.line (resampleSum granularity metric dff),
       granularityLabel granularity ++ " " ++ metric_map metric ++ " "
         ++ regionLabel continent country)

/-- C3: when the selected metric is not a column of the loaded table, or no
rows survive the filters, the analytics and time tabs return placeholder
outputs ("N/A"/"No data" texts and empty figures) instead of raising. -/
theorem analytics_time_placeholders (tbl : Table) (sd ed : Option Int)
    (m continent country granularity : String) :
    ((tbl.rows = [] ∨ m ∉ tbl.cols) →
      update_analytics_tab tbl sd ed m continent =
        (List.replicate 5 CellText.na, .empty, .empty, .empty) ∧
      update_time_tab tbl sd ed m continent country granularity =
        (.empty, "Select a metric")) ∧
    (tbl.rows ≠ [] → m ∈ tbl.cols →
      (analyticsFiltered tbl sd ed continent = [] →
        update_analytics_tab tbl sd ed m continent =
          (List.replicate 5 CellText.nodata, .empty, .empty, .empty)) ∧
      (filteredView tbl sd ed continent country = [] →
        update_time_tab tbl sd ed m continent country granularity =
          (.empty, "No data available for selected filters"))) := by
  constructor
  · intro h
    have hg : tbl.rows.isEmpty ∨ m ∉ tbl.cols := by
      rcases h with h | h
      · exact Or.inl (List.isEmpty_iff.mpr h)
      · exact Or.inr h
    constructor
    · unfold update_analytics_tab
      rw [if_pos hg]
    · unfold update_time_tab
      rw [if_pos hg]
  · intro hne hm
    have hg : ¬ (tbl.rows.isEmpty ∨ m ∉ tbl.cols) := by
      push_neg
      exact ⟨by simpa [List.isEmpty_iff] using hne, hm⟩
    constructor
    · intro hdff
      unfold update_analytics_tab
      rw [if_neg hg]
      simp only [hdff, List.isEmpty_nil, if_pos]
    · intro hdff
      unfold update_time_tab
      rw [if_neg hg]
      simp only [hdff, List.isEmpty_nil, if_pos]

/-- Concrete check for C3: an unknown metric and a filter combination that
leaves no rows, on the three-row sample table. -/
theorem analytics_time_placeholders_check :
    update_analytics_tab sampleTable none none "conversion_rate" "all" =
      (List.replicate 5 CellText.na, .empty, .empty, .empty) ∧
    update_time_tab sampleTable none none "conversion_rate" "all" "all" "D" =
      (.empty, "Select a metric") ∧
    update_analytics_tab sampleTable none none "jobs_placed" "africa" =
      (List.replicate 5 CellText.nodata, .empty, .empty, .empty) ∧
    update_time_tab sampleTable none none "jobs_placed" "africa" "all" "D" =
      (.empty, "No data available for selected filters") := by
  have h1 := (analytics_time_placeholders sampleTable none none
    "conversion_rate" "all" "all" "D").1 (Or.inr (by decide))
  have h2 := (analytics_time_placeholders sampleTable none none
    "jobs_placed" "africa" "all" "D").2 (by decide) (by decide)
  exact ⟨h1.1, h1.2, h2.1 (by decide), h2.2 (by decide)⟩

/-- Descending comparison on summed metric values: `a` may precede `b` when
`b`'s value does not exceed `a`'s.  With ties the earlier entry stays first,
matching pandas `nlargest` with `keep='first'`. -/
def geoGE (a b : String × Int) : Prop := b.2 ≤ a.2

instance : DecidableRel geoGE := fun a b => inferInstanceAs (Decidable (b.2 ≤ a.2))

instance : IsTotal (String × Int) geoGE := ⟨fun a b => le_total b.2 a.2⟩

instance : IsTrans (String × Int) geoGE := ⟨fun _ _ _ hab hbc => le_trans hbc hab⟩

/-- Ascending comparison on summed metric values, for `nsmallest`. -/
def geoLE (a b : String × Int) : Prop := a.2 ≤ b.2

instance : DecidableRel geoLE := fun a b => inferInstanceAs (Decidable (a.2 ≤ b.2))

instance : IsTotal (String × Int) geoLE := ⟨fun a b => le_total a.2 b.2⟩

instance : IsTrans (String × Int) geoLE := ⟨fun _ _ _ hab hbc => le_trans hab hbc⟩

/-- `countries_df.nlargest(n, metric)`: a stable descending sort by value,
then the first `n` entries. -/
def nlargest (n : Nat) (l : List (String × Int)) : List (String × Int) :=
  (List.insertionSort geoGE l).take n

/-- `countries_df.nsmallest(n, metric)`. -/
def nsmallest (n : Nat) (l : List (String × Int)) : List (String × Int) :=
  (List.insertionSort geoLE l).take n

theorem take_sorted_split (r : (String × Int) → (String × Int) → Prop)
    [DecidableRel r] [IsTotal (String × Int) r] [IsTrans (String × Int) r]
    (l : List (String × Int)) (n : Nat) :
    ∃ rest, (((List.insertionSort r l).take n ++ rest).Perm l ∧
      ∀ x ∈ (List.insertionSort r l).take n, ∀ y ∈ rest, r x y) := by
  refine ⟨(List.insertionSort r l).drop n, ?_, ?_⟩
  · rw [List.take_append_drop]
    exact List.perm_insertionSort r l
  · have hs : List.Sorted r (List.insertionSort r l) :=
      List.sorted_insertionSort r l
    have hp : List.Pairwise r ((List.insertionSort r l).take n
        ++ (List.insertionSort r l).drop n) := by
      rw [List.take_append_drop]
      exact hs
    exact (List.pairwise_append.mp hp).2.2

theorem nlargest_spec (n : Nat) (l : List (String × Int)) :
    (nlargest n l).length = min n l.length ∧
    ∃ rest, ((nlargest n l ++ rest).Perm l ∧
      ∀ x ∈ nlargest n l, ∀ y ∈ rest, y.2 ≤ x.2) := by
  constructor
  · unfold nlargest
    rw [List.length_take, List.length_insertionSort]
  · exact take_sorted_split geoGE l n

theorem nsmallest_spec (n : Nat) (l : List (String × Int)) :
    (nsmallest n l).length = min n l.length ∧
    ∃ rest, ((nsmallest n l ++ rest).Perm l ∧
      ∀ x ∈ nsmallest n l, ∀ y ∈ rest, x.2 ≤ y.2) := by
  constructor
  · unfold nsmallest
    rw [List.length_take, List.length_insertionSort]
  · exact take_sorted_split geoLE l n

/-- The filtered frame of `update_geo_tab`: the continent filter, then the
country filter unless the country is "all" or unset (`None`). -/
def geoFiltered (tbl : Table) (continent : String) (country : Option String) :
    List Row :=
  let dff := filterContinent continent (Table.copy tbl).rows
  match country with
  | none => dff
  | some c => if c = "all" then dff else dff.filter fun r => decide (r.country = c)

/-- `countries_df = dff.groupby('country')[metric].sum()` in
`update_geo_tab`. -/
def geoCountriesDf (tbl : Table) (metric continent : String)
    (country : Option String) : List (String × Int) :=
  groupSum (fun r => r.country) (metricVal metric)
    (geoFiltered tbl continent country)

/-- The data of the geo tab's countries bar chart: the top or bottom
`performance_count` countries by summed metric (empty when the guard fails
or no country remains). -/
def update_geo_bar (tbl : Table) (metric continent : String)
    (country : Option String) (performance_type : String)
    (performance_count : Nat) : List (String × Int) :=
  if tbl.rows.isEmpty ∨ metric ∉ tbl.cols then []
  else
    let g := geoCountriesDf tbl metric continent country
    if g.isEmpty then []
    else if performance_type = "top" then nlargest performance_count g
    else nsmallest performance_count g

/-- C5: for `performance_type` "top" the geo bar chart holds exactly the
`performance_count` countries with the largest summed metric (every shown
country's total is at least every omitted country's total), for "bottom"
the countries with the smallest summed metric, and all countries are shown
when fewer than `performance_count` exist. -/
theorem geo_bar_selects_extremes (tbl : Table) (metric continent : String)
    (country : Option String) (n : Nat)
    (hne : tbl.rows ≠ []) (hm : metric ∈ tbl.cols) :
    ((update_geo_bar tbl metric continent country "top" n).length
        = min n (geoCountriesDf tbl metric continent country).length ∧
      ∃ rest, ((update_geo_bar tbl metric continent country "top" n ++ rest).Perm
          (geoCountriesDf tbl metric continent country) ∧
        ∀ x ∈ update_geo_bar tbl metric continent country "top" n,
          ∀ y ∈ rest, y.2 ≤ x.2)) ∧
    ((update_geo_bar tbl metric continent country "bottom" n).length
        = min n (geoCountriesDf tbl metric continent country).length ∧
      ∃ rest, ((update_geo_bar tbl metric continent country "bottom" n ++ rest).Perm
          (geoCountriesDf tbl metric continent country) ∧
        ∀ x ∈ update_geo_bar tbl metric continent country "bottom" n,
          ∀ y ∈ rest, x.2 ≤ y.2)) ∧
    ((geoCountriesDf tbl metric continent country).length ≤ n →
      (update_geo_bar tbl metric continent country "top" n).Perm
        (geoCountriesDf tbl metric continent country) ∧
      (update_geo_bar tbl metric continent country "bottom" n).Perm
        (geoCountriesDf tbl metric continent country)) := by
  have hg : ¬ (tbl.rows.isEmpty ∨ metric ∉ tbl.cols) := by
    push_neg
    exact ⟨by simpa [List.isEmpty_iff] using hne, hm⟩
  by_cases hempty : (geoCountriesDf tbl metric continent country).isEmpty
  · have hnil : geoCountriesDf tbl metric continent country = [] :=
      List.isEmpty_iff.mp hempty
    have htop : update_geo_bar tbl metric continent country "top" n = [] := by
      unfold update_geo_bar
      rw [if_neg hg]
      simp only [hempty, if_pos]
    have hbot : update_geo_bar tbl metric continent country "bottom" n = [] := by
      unfold update_geo_bar
      rw [if_neg hg]
      simp only [hempty, if_pos]
    refine ⟨⟨?_, [], ?_, ?_⟩, ⟨?_, [], ?_, ?_⟩, fun _ => ⟨?_, ?_⟩⟩ <;>
      simp [htop, hbot, hnil]
  · have htop : update_geo_bar tbl metric continent country "top" n =
        nlargest n (geoCountriesDf tbl metric continent country) := by
      unfold update_geo_bar
      rw [if_neg hg]
      simp only [hempty, if_neg, if_pos, Bool.false_eq_true, ite_false, ite_true]
    have hbot : update_geo_bar tbl metric continent country "bottom" n =
        nsmallest n (geoCountriesDf tbl metric continent country) := by
      unfold update_geo_bar
      rw [if_neg hg]
      have hbt : ¬ ("bottom" : String) = "top" := by decide
      simp only [hempty, Bool.false_eq_true, ite_false, hbt]
    have hl := nlargest_spec n (geoCountriesDf tbl metric continent country)
    have hsR := nsmallest_spec n (geoCountriesDf tbl metric continent country)
    refine ⟨⟨htop ▸ hl.1, ?_⟩, ⟨hbot ▸ hsR.1, ?_⟩, fun hlen => ⟨?_, ?_⟩⟩
    · exact htop ▸ hl.2
    · exact hbot ▸ hsR.2
    · rcases hl.2 with ⟨rest, hperm, _⟩
      have hrest : rest = [] := by
        have hlen2 := hperm.length_eq
        rw [List.length_append, hl.1] at hlen2
        have hmin : min n (geoCountriesDf tbl metric continent country).length
            = (geoCountriesDf tbl metric continent country).length :=
          Nat.min_eq_right hlen
        rw [hmin] at hlen2
        exact List.length_eq_zero.mp (by omega)
      subst hrest
      rw [htop]
      simpa using hperm
    · rcases hsR.2 with ⟨rest, hperm, _⟩
      have hrest : rest = [] := by
        have hlen2 := hperm.length_eq
        rw [List.length_append, hsR.1] at hlen2
        have hmin : min n (geoCountriesDf tbl metric continent country).length
            = (geoCountriesDf tbl metric continent country).length :=
          Nat.min_eq_right hlen
        rw [hmin] at hlen2
        exact List.length_eq_zero.mp (by omega)
      subst hrest
      rw [hbot]
      simpa using hperm

/-- Concrete check for C5 on the three-country sample table: the top-2
selection, and the all-countries case when the requested count exceeds the
number of countries. -/
theorem geo_bar_selects_extremes_check :
    ((update_geo_bar sampleTable "jobs_placed" "all" none "top" 2).length
        = min 2 (geoCountriesDf sampleTable "jobs_placed" "all" none).length ∧
      ∃ rest, ((update_geo_bar sampleTable "jobs_placed" "all" none "top" 2
            ++ rest).Perm (geoCountriesDf sampleTable "jobs_placed" "all" none) ∧
        ∀ x ∈ update_geo_bar sampleTable "jobs_placed" "all" none "top" 2,
          ∀ y ∈ rest, y.2 ≤ x.2)) ∧
    (update_geo_bar sampleTable "jobs_placed" "all" none "top" 5).Perm
      (geoCountriesDf sampleTable "jobs_placed" "all" none) :=
  ⟨(geo_bar_selects_extremes sampleTable "jobs_placed" "all" none 2
      (by decide) (by decide)).1,
   ((geo_bar_selects_extremes sampleTable "jobs_placed" "all" none 5
      (by decide) (by decide)).2.2 (by decide)).1⟩

/-- The column selection of the export callbacks when a single metric is
chosen: `['date', 'country', 'continent', 'age_group', metric]`. -/
def exportColumns (metric : String) : List String :=
  ["date", "country", "continent", "age_group", metric]

/-- `download_csv`: `None` when the loaded table is empty (no file is
produced); otherwise the filtered view serialized to CSV, restricted to the
kept column list.  Row projection is determined by `cols`. -/
def download_csv (tbl : Table) (sd ed : Option Int) (metric continent : String) :
    Option Table :=
  if tbl.rows.isEmpty then none
  else
    let dff := filterContinent continent (filterDates sd ed (Table.copy tbl).rows)
    some { cols := if metric = "all" then tbl.cols
                   else (exportColumns metric).filter fun c => tbl.cols.contains c,
           rows := dff }

/-- `update_export_preview`: the first 10 rows of the filtered view, plus the
preview header text. -/
def update_export_preview (tbl : Table) (sd ed : Option Int)
    (metric continent : String) : Table × String :=
  if tbl.rows.isEmpty then ({ cols := [], rows := [] }, "No data available")
  else
    let dff := filterContinent continent (filterDates sd ed (Table.copy tbl).rows)
    let kept := if metric = "all" then tbl.cols
                else (exportColumns metric).filter fun c => tbl.cols.contains c
    ({ cols := kept, rows := dff.take 10 },
     if sd.isSome ∨ ed.isSome ∨ continent ≠ "all" ∨ metric ≠ "all" then
       "Filtered Dataset Preview"
     else "Dataset Preview (First 10 rows)")

/-- The export row predicate as the claim states it: the date lies within the
selected range (inclusive on both ends, each bound applied only when set; a
row with an unparsed date fails any applied bound) and the continent matches
when one is selected. -/
def exportKeeps (sd ed : Option Int) (continent : String) (r : Row) : Bool :=
  (match sd with | none => true | some s => dateGe s r.date) &&
  (match ed with | none => true | some e => dateLe e r.date) &&
  (decide (continent = "all") || decide (r.continent = continent))

theorem filterDates_none_none (rows : List Row) :
    filterDates none none rows = rows := rfl

theorem filterDates_some_none (s : Int) (rows : List Row) :
    filterDates (some s) none rows = filterStart s rows := rfl

theorem filterDates_none_some (e : Int) (rows : List Row) :
    filterDates none (some e) rows = filterEnd e rows := rfl

theorem filterDates_some_some (s e : Int) (rows : List Row) :
    filterDates (some s) (some e) rows = filterEnd e (filterStart s rows) := rfl

theorem filterContinent_all (rows : List Row) :
    filterContinent "all" rows = rows := by
  simp [filterContinent]

theorem filterContinent_ne (c : String) (hc : ¬ c = "all") (rows : List Row) :
    filterContinent c rows = rows.filter fun r => decide (r.continent = c) := by
  simp [filterContinent, hc]

/-- The sequential filters of the export callbacks compute one simultaneous
row predicate, preserving the table's row order. -/
theorem filter_chain_eq (sd ed : Option Int) (continent : String)
    (rows : List Row) :
    filterContinent continent (filterDates sd ed rows)
      = rows.filter (exportKeeps sd ed continent) := by
  cases sd with
  | none =>
    cases ed with
    | none =>
      rw [filterDates_none_none]
      by_cases hc : continent = "all"
      · subst hc
        rw [filterContinent_all]
        exact (List.filter_eq_self.mpr fun r _ => by simp [exportKeeps]).symm
      · rw [filterContinent_ne continent hc]
        exact List.filter_congr fun r _ => by simp [exportKeeps, hc]
    | some e =>
      rw [filterDates_none_some]
      unfold filterEnd
      by_cases hc : continent = "all"
      · subst hc
        rw [filterContinent_all]
        exact List.filter_congr fun r _ => by simp [exportKeeps]
      · rw [filterContinent_ne continent hc, List.filter_filter]
        exact List.filter_congr fun r _ => by
          simp [exportKeeps, hc, Bool.and_comm]
  | some s =>
    cases ed with
    | none =>
      rw [filterDates_some_none]
      unfold filterStart
      by_cases hc : continent = "all"
      · subst hc
        rw [filterContinent_all]
        exact List.filter_congr fun r _ => by simp [exportKeeps]
      · rw [filterContinent_ne continent hc, List.filter_filter]
        exact List.filter_congr fun r _ => by
          simp [exportKeeps, hc, Bool.and_comm]
    | some e =>
      rw [filterDates_some_some]
      unfold filterStart filterEnd
      by_cases hc : continent = "all"
      · subst hc
        rw [filterContinent_all, List.filter_filter]
        exact List.filter_congr fun r _ => by
          simp [exportKeeps, Bool.and_comm]
      · rw [filterContinent_ne continent hc, List.filter_filter,
          List.filter_filter]
        exact List.filter_congr fun r _ => by
          cases hd : r.date <;>
            simp [exportKeeps, hc, dateGe, dateLe, hd, Bool.and_comm,
              Bool.and_assoc, Bool.and_left_comm]

/-- C6: the downloadable CSV holds exactly the rows of the loaded table that
satisfy the date-range and continent predicates, in the table's original
order, and — when a single metric is selected — only the existing columns
among date, country, continent, age_group and that metric. -/
theorem download_csv_spec (tbl : Table) (sd ed : Option Int)
    (metric continent : String) (out : Table)
    (h : download_csv tbl sd ed metric continent = some out) :
    out.rows = tbl.rows.filter (exportKeeps sd ed continent) ∧
    out.cols = (if metric = "all" then tbl.cols
                else (exportColumns metric).filter fun c => tbl.cols.contains c) := by
  unfold download_csv at h
  by_cases he : tbl.rows.isEmpty
  · rw [if_pos he] at h
    cases h
  · rw [if_neg he] at h
    have h2 := (Option.some.injEq _ _).mp h
    constructor
    · rw [← h2]
      exact filter_chain_eq sd ed continent tbl.rows
    · rw [← h2]

/-- Concrete check for C6: a start bound and a continent filter on the
sample table keep exactly its third row. -/
theorem download_csv_spec_check :
    (Table.mk ["date", "country", "continent", "age_group", "jobs_placed"]
        [rowC]).rows
      = sampleTable.rows.filter (exportKeeps (some 15) none "europe") ∧
    (Table.mk ["date", "country", "continent", "age_group", "jobs_placed"]
        [rowC]).cols
      = (if "jobs_placed" = "all" then sampleTable.cols
         else (exportColumns "jobs_placed").filter fun c =>
           sampleTable.cols.contains c) :=
  download_csv_spec sampleTable (some 15) none "jobs_placed" "europe"
    (Table.mk ["date", "country", "continent", "age_group", "jobs_placed"]
      [rowC]) (by decide)

/-- C9: for equal filter arguments, the export preview table is the first 10
rows of the table the CSV download would export, with the same columns: the
two callbacks apply the same filter chain and column selection. -/
theorem export_preview_matches_download (tbl : Table) (sd ed : Option Int)
    (metric continent : String) (out : Table)
    (h : download_csv tbl sd ed metric continent = some out) :
    (update_export_preview tbl sd ed metric continent).1.rows
      = out.rows.take 10 ∧
    (update_export_preview tbl sd ed metric continent).1.cols = out.cols := by
  unfold download_csv at h
  by_cases he : tbl.rows.isEmpty
  · rw [if_pos he] at h
    cases h
  · rw [if_neg he] at h
    have h2 := (Option.some.injEq _ _).mp h
    unfold update_export_preview
    rw [if_neg he, ← h2]
    exact ⟨rfl, rfl⟩

/-- Concrete check for C9: with no filters set, the preview equals the first
10 rows of the exported table. -/
theorem export_preview_matches_download_check :
    (update_export_preview sampleTable none none "all" "all").1.rows
      = (Table.mk sampleTable.cols [rowA, rowB, rowC]).rows.take 10 ∧
    (update_export_preview sampleTable none none "all" "all").1.cols
      = (Table.mk sampleTable.cols [rowA, rowB, rowC]).cols :=
  export_preview_matches_download sampleTable none none "all" "all"
    (Table.mk sampleTable.cols [rowA, rowB, rowC]) (by decide)

/-- Total of the four metric cells of a stacked-bar row. -/
def Totals.sumAll (t : Totals) : Int :=
  t.jobs_placed + t.scheduled_demos + t.ai_requests + t.promotional_events

/-- Total of the four normalized cells of a stacked-bar row. -/
def RatTotals.sumAll (t : RatTotals) : Rat :=
  t.jobs_placed + t.scheduled_demos + t.ai_requests + t.promotional_events

/-- One row of
`stacked_df[metrics].div(stacked_df[metrics].sum(axis=1), axis=0) * 100`
in exact rational arithmetic.  On a row whose four totals sum to zero the
source divides by zero and produces NaN cells; the property proved below is
restricted to rows with a nonzero sum, where the rational model agrees. -/
def percentRow (t : Totals) : RatTotals :=
  let s : Rat := (t.jobs_placed : Rat) + (t.scheduled_demos : Rat)
    + (t.ai_requests : Rat) + (t.promotional_events : Rat)
  ⟨(t.jobs_placed : Rat) / s * 100, (t.scheduled_demos : Rat) / s * 100,
   (t.ai_requests : Rat) / s * 100, (t.promotional_events : Rat) / s * 100⟩

/-- The identity embedding of a count row into rational cells (the
non-percentage view). -/
def castRow (t : Totals) : RatTotals :=
  ⟨(t.jobs_placed : Rat), (t.scheduled_demos : Rat), (t.ai_requests : Rat),
   (t.promotional_events : Rat)⟩

/-- The stacked-bar data of `update_summary_tab` after the optional
percentage normalization. -/
def summaryStackedData (tbl : Table) (continent country view_type : String) :
    List (String × RatTotals) :=
  if view_type = "percentage" then
    (stacked_df tbl continent country).map fun g => (g.1, percentRow g.2)
  else
    (stacked_df tbl continent country).map fun g => (g.1, castRow g.2)

/-- C7: in the percentage view every stacked-bar row with a nonzero metric
total is normalized so that its four cells sum to exactly 100. -/
theorem percentage_rows_sum_100 (tbl : Table) (continent country : String)
    (g : String × Totals) (_hg : g ∈ stacked_df tbl continent country)
    (hnz : g.2.sumAll ≠ 0) :
    summaryStackedData tbl continent country "percentage"
      = (stacked_df tbl continent country).map (fun p => (p.1, percentRow p.2)) ∧
    (percentRow g.2).sumAll = 100 := by
  refine ⟨by unfold summaryStackedData; rw [if_pos rfl], ?_⟩
  have hs : ((g.2.jobs_placed : Rat) + (g.2.scheduled_demos : Rat)
      + (g.2.ai_requests : Rat) + (g.2.promotional_events : Rat)) ≠ 0 := by
    intro h0
    apply hnz
    unfold Totals.sumAll
    exact_mod_cast h0
  unfold percentRow RatTotals.sumAll
  field_simp
  ring

/-- Concrete check for C7: the "europe" group of the sample table (totals
5, 8, 4, 11) has nonzero sum and its percentage row sums to 100. -/
theorem percentage_rows_sum_100_check :
    summaryStackedData sampleTable "all" "all" "percentage"
      = (stacked_df sampleTable "all" "all").map (fun p => (p.1, percentRow p.2)) ∧
    (percentRow ⟨5, 8, 4, 11⟩).sumAll = 100 :=
  percentage_rows_sum_100 sampleTable "all" "all" ("europe", ⟨5, 8, 4, 11⟩)
    (by decide) (by decide)

/-- One slot of a callback's returned tuple, as the framework receives it.
`strs` is a Python list returned in a single slot; `num` is a numeric value
the source renders with thousands separators; `date` is a date the source
renders with `strftime`. -/
inductive OutVal where
  | str (s : String)
  | strs (ss : List String)
  | num (n : Int)
  | date (d : Int)
  | fig (f : Fig)
deriving DecidableEq, Repr

/-- The overview callback declares eight Outputs (four metric totals, the
activity figure, top country, peak day and best metric). -/
def overview_output_count : Nat := 8

/-- `max(metrics, key=lambda x: df[x].sum())`: the first metric with the
largest total. -/
def bestMetric (rows : List Row) : String :=
  (metrics.drop 1).foldl
    (fun best m =>
      if (rows.map (metricVal m)).sum > (rows.map (metricVal best)).sum then m
      else best)
    (metrics.headD "jobs_placed")

/-- `idxmax`: the first element with the maximal value (`none` on an empty
frame, where pandas raises). -/
def firstMaxBy {α : Type} (f : α → Int) : List α → Option α
  | [] => none
  | x :: xs => some (xs.foldl (fun b y => if f y > f b then y else b) x)

/-- `df.groupby('country')['jobs_placed'].sum().idxmax()`. -/
def topCountry (rows : List Row) : Option String :=
  (firstMaxBy (fun g => g.2)
    (groupSum (fun r => r.country) (fun r => r.jobs_placed) rows)).map
    fun g => g.1

/-- `df.groupby(pd.Grouper(key='date', freq=g))[metrics].sum()` and
`resample(g)[metrics].sum()`: per-bucket totals of the four metrics; rows
with an unparsed date carry no position on the time index. -/
def bucketTotals (granularity : String) (rows : List Row) :
    List (Int × Totals) :=
  let dated := rows.filter fun r => r.date.isSome
  ((dated.map fun r => bucket granularity (r.date.getD 0)).dedup).map fun k =>
    let grp := dated.filter fun r =>
      decide (bucket granularity (r.date.getD 0) = k)
    (k, ⟨(grp.map fun r => r.jobs_placed).sum,
         (grp.map fun r => r.scheduled_demos).sum,
         (grp.map fun r => r.ai_requests).sum,
         (grp.map fun r => r.promotional_events).sum⟩)

/-- The `try` block of `update_overview_content`; `none` models a raised
exception (a required column missing, or `strftime` on an unparsed peak
date). -/
def overviewData (tbl : Table) : Option (List OutVal) :=
  if ¬ ((metrics ++ ["date", "country"]).all fun c => tbl.cols.contains c) then
    none
  else
    match firstMaxBy (fun r => r.jobs_placed) tbl.rows with
    | none => none
    | some peak =>
      match peak.date, topCountry tbl.rows with
      | none, _ => none
      | _, none => none
      | some peakDay, some top =>
        some [.num ((tbl.rows.map fun r => r.jobs_placed).sum),
              .num ((tbl.rows.map fun r => r.scheduled_demos).sum),
              .num ((tbl.rows.map fun r => r.ai_requests).sum),
              .num ((tbl.rows.map fun r => r.promotional_events).sum),
              .fig (.lineMulti (bucketTotals "W" tbl.rows)),
              .str top,
              .date peakDay,
              .str (metric_map (bestMetric tbl.rows))]

/-- `update_overview_content`, returning the tuple handed back to the
framework: five values on both failure paths (the list of four "0" strings
occupies a single slot) against the eight declared Outputs. -/
def update_overview_content (tbl : Table) (active_tab : String) :
    List OutVal :=
  if tbl.rows.isEmpty ∨ active_tab ≠ "overview" then
    [.strs (List.replicate 4 "0"), .fig .emptyLine,
     .str "N/A", .str "N/A", .str "N/A"]
  else
    match overviewData tbl with
    | some outs => outs
    | none =>
      [.strs (List.replicate 4 "0"), .fig .emptyLine,
       .str "Error", .str "Error", .str "Error"]

/-- C8 (evaluation at the failing inputs): on the empty-dataset path the
overview callback returns a five-element tuple — a list of four "0" strings
in one slot, an empty line chart and three "N/A" strings — although eight
Outputs are declared, so the framework rejects the return value and no
output receives its placeholder; on the exception path it likewise returns
five values, with "Error" instead of the claimed "N/A". -/
theorem overview_failure_returns_five_values :
    update_overview_content (Table.mk sampleTable.cols []) "overview"
      = [.strs ["0", "0", "0", "0"], .fig .emptyLine,
         .str "N/A", .str "N/A", .str "N/A"] ∧
    (update_overview_content (Table.mk sampleTable.cols []) "overview").length
      = 5 ∧
    update_overview_content (Table.mk ["date"] [rowA]) "overview"
      = [.strs ["0", "0", "0", "0"], .fig .emptyLine,
         .str "Error", .str "Error", .str "Error"] ∧
    (update_overview_content (Table.mk ["date"] [rowA]) "overview").length
      = 5 ∧
    (update_overview_content sampleTable "overview").length
      = overview_output_count ∧
    overview_output_count = 8 := by
  refine ⟨by decide, by decide, by decide, by decide, by decide, rfl⟩

/-- `update_age_tab`: the age-group bar chart and pie chart. -/
def update_age_tab (tbl : Table) (metric continent country : String) :
    Fig × Fig :=
  if tbl.rows.isEmpty ∨ ¬ tbl.cols.contains "age_group"
      ∨ ¬ tbl.cols.contains metric then
    (.empty, .empty)
  else
    let dff := ageFiltered tbl continent country
    if dff.isEmpty then (.empty, .empty)
    else
      let bar_df := groupSum (fun r => r.age_group) (metricVal metric) dff
      (.bar bar_df, .pie bar_df)

/-- The donut data of `update_summary_tab`:
`{metric: dff[metric].sum() for metric in metrics if metric in dff.columns}`
with display labels. -/
def donutData (tbl : Table) (dff : List Row) : List (String × Int) :=
  (metrics.filter fun m => tbl.cols.contains m).map fun m =>
    (metric_map m, (dff.map (metricVal m)).sum)

/-- `update_summary_tab`: donut, stacked bar (with optional percentage
normalization) and monthly trend. -/
def update_summary_tab (tbl : Table) (continent country view_type : String) :
    Fig × Fig × Fig :=
  if tbl.rows.isEmpty then (.empty, .empty, .empty)
  else
    let dff := summaryFiltered tbl continent country
    (.pie (donutData tbl dff),
     .stackedBar (summaryStackedData tbl continent country view_type),
     .lineMulti (bucketTotals "M" dff))

/-- A stable sort of country names (`sorted(...)`). -/
def sortStrings (l : List String) : List String :=
  List.insertionSort (fun a b : String => a ≤ b) l

/-- The country dropdown options and disabled flag of the geo tab (labels
are shown through Python `str.title()`, which is not modelled). -/
def geoCountryOptions (tbl : Table) (continent : String) :
    List (String × String) × Bool :=
  if continent = "all" then ([("All Countries", "all")], true)
  else
    let cs := ((tbl.rows.filter fun r => decide (r.continent = continent)).map
      fun r => r.country).dedup
    (("All Countries", "all") :: (sortStrings cs).map fun c => (c, c), false)

/-- `update_geo_tab`: dropdown options, disabled flag, choropleth, countries
bar chart and title. -/
def update_geo_tab (tbl : Table) (metric continent : String)
    (country : Option String) (performance_type : String)
    (performance_count : Nat) :
    List (String × String) × Bool × Fig × Fig × String :=
  if tbl.rows.isEmpty ∨ metric ∉ tbl.cols then
    ([], true, .empty, .empty, "Select a metric")
  else
    let opts := geoCountryOptions tbl continent
    let dff := geoFiltered tbl continent country
    let map_df := groupSum (fun r => r.country) (metricVal metric) dff
    let map_fig := if map_df.isEmpty then Fig.empty else Fig.choropleth map_df
    let bar_fig :=
      if (geoCountriesDf tbl metric continent country).isEmpty then Fig.empty
      else Fig.bar (update_geo_bar tbl metric continent country
        performance_type performance_count)
    (opts.1, opts.2, map_fig, bar_fig,
     metric_map metric ++ " - "
       ++ (if continent = "all" then "Global View"
           else continent ++ (match country with
             | some c => if c = "all" then "" else " (" ++ c ++ ")"
             | none => "")))

/-- The module state of the application: the dataset and user table loaded
at startup. -/
structure AppState where
  df : Table
  users : List UserRec
deriving DecidableEq, Repr

/-- The filter arguments of one tab-update callback invocation. -/
inductive TabArgs where
  | analytics (sd ed : Option Int) (metric continent : String)
  | time (sd ed : Option Int) (metric continent country granularity : String)
  | geo (metric continent : String) (country : Option String)
      (performance_type : String) (performance_count : Nat)
  | age (metric continent country : String)
  | summary (continent country view_type : String)
  | exportPreview (sd ed : Option Int) (metric continent : String)
  | overview (active_tab : String)
deriving DecidableEq, Repr

/-- The output of one tab-update callback invocation. -/
inductive TabOut where
  | analytics (o : List CellText × Fig × Fig × Fig)
  | time (o : Fig × String)
  | geo (o : List (String × String) × Bool × Fig × Fig × String)
  | age (o : Fig × Fig)
  | summary (o : Fig × Fig × Fig)
  | exportPreview (o : Table × String)
  | overview (o : List OutVal)
deriving DecidableEq, Repr

/-- One tab-update callback invocation in state-passing form: the callback
reads the module-level table (each data callback via `df.copy()`), computes
its output, and hands the module state back. -/
def tabStep (s : AppState) : TabArgs → TabOut × AppState
  | .analytics sd ed m c => (.analytics (update_analytics_tab s.df sd ed m c), s)
  | .time sd ed m c k g => (.time (update_time_tab s.df sd ed m c k g), s)
  | .geo m c k pt pc => (.geo (update_geo_tab s.df m c k pt pc), s)
  | .age m c k => (.age (update_age_tab s.df m c k), s)
  | .summary c k v => (.summary (update_summary_tab s.df c k v), s)
  | .exportPreview sd ed m c =>
    (.exportPreview (update_export_preview s.df sd ed m c), s)
  | .overview t => (.overview (update_overview_content s.df t), s)

/-- C4: every tab-update callback is a pure function of its arguments and
the loaded table: it hands the module state back unchanged (no call mutates
the loaded table), and its output depends only on the table and the
arguments, so equal calls return equal results. -/
theorem tab_callbacks_pure :
    (∀ (s : AppState) (a : TabArgs), (tabStep s a).2 = s) ∧
    (∀ (s t : AppState) (a : TabArgs), s.df = t.df →
      (tabStep s a).1 = (tabStep t a).1) := by
  constructor
  · intro s a
    cases a <;> rfl
  · intro s t a h
    cases a <;> simp [tabStep, h]

/-- Concrete check for C4: a summary-tab call leaves the state unchanged
and two states with the same table give the same output. -/
theorem tab_callbacks_pure_check :
    (tabStep ⟨sampleTable, []⟩ (.summary "all" "all" "absolute")).2
      = ⟨sampleTable, []⟩ ∧
    (tabStep ⟨sampleTable, []⟩ (.summary "all" "all" "absolute")).1
      = (tabStep ⟨sampleTable, [⟨"alice", "h1", "analyst"⟩]⟩
          (.summary "all" "all" "absolute")).1 :=
  ⟨tab_callbacks_pure.1 _ _, tab_callbacks_pure.2 _ _ _ rfl⟩

/-- C1: `verify_user` returns `true` exactly when the username and password
are non-empty, the user table has a row with exactly that username, and
bcrypt verification of the password against the hash stored in the first such
row reports success; in every other case (empty input, unknown username,
verification failure or a raised bcrypt exception) it returns `false`. -/
theorem verify_user_true_iff (checkpw : Checkpw) (users : List UserRec)
    (username password : String) :
    verify_user checkpw users username password = true ↔
      username ≠ "" ∧ password ≠ "" ∧
      ∃ u, users.find? (fun r => r.username == username) = some u ∧
        u.username = username ∧
        checkpw password u.password_hash = Except.ok true := by
  unfold verify_user
  by_cases hu : username = ""
  · simp [hu]
  by_cases hp : password = ""
  · simp [hp]
  rw [if_neg (by tauto)]
  cases hfind : users.find? (fun u => u.username == username) with
  | none => simp [hu, hp]
  | some u =>
    have huser : u.username = username := by
      have := List.find?_some hfind
      simpa using this
    cases hcp : checkpw password u.password_hash with
    | ok b =>
      cases b <;> simp [hu, hp, huser, hcp]
    | error e => simp [hu, hp, hcp]

/-- C10: a failed login attempt leaves the session-auth store unchanged: on
missing input the callback returns `dash.no_update` with a prompt message, on
failed verification it returns `dash.no_update` with an error message, and
only a successful verification produces a record with `authenticated := true`,
the username and the supplied fresh session id. -/
theorem login_failed_no_update (checkpw : Checkpw) (users : List UserRec)
    (sid username password : String) (remember : Bool) :
    ((username = "" ∨ password = "") →
      login checkpw users sid username password remember =
        (none, "Please enter both username and password.")) ∧
    (username ≠ "" → password ≠ "" →
      verify_user checkpw users username password = false →
      login checkpw users sid username password remember =
        (none, "Invalid username or password.")) ∧
    (verify_user checkpw users username password = true →
      login checkpw users sid username password remember =
        (some { authenticated := true, user := username,
                session_id := sid, persistent := remember }, "")) := by
  refine ⟨fun h => ?_, fun hu hp hv => ?_, fun hv => ?_⟩
  · unfold login
    rw [if_pos h]
  · unfold login
    rw [if_neg (by tauto), if_neg (by simp [hv])]
  · have hne : ¬ (username = "" ∨ password = "") := by
      intro h
      have : verify_user checkpw users username password = false := by
        unfold verify_user
        rw [if_pos h]
      simp [this] at hv
    unfold login
    rw [if_neg hne, if_pos hv]

/-- Concrete check for C10: a password-verification failure and a success on
a one-row user table, with the stated outputs. -/
theorem login_failed_no_update_check :
    login (fun p h => Except.ok (p == "pw" && h == "h1"))
        [⟨"alice", "h1", "analyst"⟩] "sid-1" "alice" "bad" false =
      (none, "Invalid username or password.") ∧
    login (fun p h => Except.ok (p == "pw" && h == "h1"))
        [⟨"alice", "h1", "analyst"⟩] "sid-1" "alice" "pw" false =
      (some { authenticated := true, user := "alice",
              session_id := "sid-1", persistent := false }, "") ∧
    login (fun p h => Except.ok (p == "pw" && h == "h1"))
        [⟨"alice", "h1", "analyst"⟩] "sid-1" "" "pw" false =
      (none, "Please enter both username and password.") := by
  refine ⟨?_, ?_, ?_⟩
  · exact (login_failed_no_update _ _ _ _ _ _).2.1 (by decide) (by decide) (by decide)
  · exact (login_failed_no_update _ _ _ _ _ _).2.2 (by decide)
  · exact (login_failed_no_update _ _ _ _ _ _).1 (by decide)

end SalesDashboard
